import Mathlib

/-!
# Verification of the hairstock inventory engine

Shallow embedding of the stock-mutation engine and analytics functions of the
hairstock repository:

* data model and mutation operations (`createProduct`, `updateProductQuantity`,
  `createTransaction`, `deleteTransaction`) from the data context
  (src/unnamed/part_002);
* the stock-adjustment confirmation logic `handleConfirmAction` from the
  StockAdjustment page (src/lib/supabase.ts, second document);
* opening-stock reconstruction from src/pages/History.tsx;
* trend and turnover classification from src/pages/ProductPerformance.tsx.

Quantities, amounts and timestamps (milliseconds since epoch) are integers;
the analytics use exact rationals for the source's floating-point divisions.
Store writes that can fail are driven by explicit Boolean failure flags; the
state models the durable store together with its in-memory mirror (they agree
on every path proved here).  Each operation additionally returns the list of
store writes it attempted, so that claims about "which writes occur" can be
stated directly.
-/

namespace HairStock

/-- Stock movement direction of a ledger transaction (`'in' | 'out'` in the source). -/
inductive TxType where
  | tin
  | tout
deriving DecidableEq, Repr

/-- A row of the `transactions` relation (`interface Transaction` in
src/unnamed/part_002).  `created_at` is milliseconds since epoch; `user_id`
and the optional `warehouse_id` are dropped: every claim under study is about
a single tenant and the operations treat the warehouse column as an opaque
pass-through. -/
structure Tx where
  id : Nat
  product_id : Nat
  product_name : String
  brand : String
  type : TxType
  amount : Int
  notes : String
  created_at : Int
deriving DecidableEq, Repr

/-- A row of the `products` relation (`interface Product` in
src/unnamed/part_002).  `image_url` and `low_stock_threshold` are pure UI
fields untouched by the claims and are omitted. -/
structure Product where
  id : Nat
  name : String
  brand : String
  variant : String
  quantity : Int
  notes : String
  created_at : Int
deriving DecidableEq, Repr

/-- Payload of `createProduct` (`interface ProductInsert`).  Optional fields
default exactly as the source defaults them (`|| ''`, `|| 0`, DB `now()`). -/
structure ProductInsert where
  name : String
  brand : Option String := none
  variant : Option String := none
  quantity : Option Int := none
  notes : Option String := none
  created_at : Option Int := none
deriving DecidableEq, Repr

/-- Payload of `createTransaction` (`interface TransactionInsert`). -/
structure TxInsert where
  product_id : Nat
  product_name : String
  brand : Option String := none
  type : TxType
  amount : Int
  notes : Option String := none
  created_at : Option Int := none
deriving DecidableEq, Repr

/-- The persistent state: the `products` and `transactions` relations plus the
store's id sequence (the source gets fresh unique ids from the database). -/
structure DB where
  products : List Product
  transactions : List Tx
  nextId : Nat
deriving DecidableEq, Repr

/-- The empty store. -/
def DB.empty : DB := ⟨[], [], 0⟩

/-- One store write, as attempted by an operation. -/
inductive Write where
  | putQty (product_id : Nat) (quantity : Int)
  | insProduct (p : Product)
  | insTx (t : Tx)
  | delTx (id : Nat)
deriving DecidableEq, Repr

/-- `updateProductQuantity` (src/unnamed/part_002 lines 593-610): one store
update of `products.quantity` filtered by id, mirrored into the local products
list on success; returns `false` and leaves everything unchanged when the
store call fails. -/
def updateProductQuantity (db : DB) (productId : Nat) (newQuantity : Int)
    (fail : Bool) : Bool × DB × List Write :=
  if fail then
    (false, db, [Write.putQty productId newQuantity])
  else
    (true,
      { db with
          products := db.products.map fun p =>
            if p.id = productId then { p with quantity := newQuantity } else p },
      [Write.putQty productId newQuantity])

/-- `createTransaction` (src/unnamed/part_002 lines 710-748): insert one
transaction row (id from the store's sequence, `created_at` defaulting to
`now`), prepend it to the local transactions mirror, return it; on a failed
insert return `null` with nothing changed.  `createProduct`'s inline insert of
the synthetic initial-stock transaction performs the same store call and the
same mirror updates and is modelled by this function as well. -/
def createTransaction (db : DB) (ti : TxInsert) (now : Int) (fail : Bool) :
    Option Tx × DB × List Write :=
  let t : Tx :=
    { id := db.nextId
      product_id := ti.product_id
      product_name := ti.product_name
      brand := ti.brand.getD ""
      type := ti.type
      amount := ti.amount
      notes := ti.notes.getD ""
      created_at := ti.created_at.getD now }
  if fail then
    (none, db, [Write.insTx t])
  else
    (some t,
      { db with transactions := t :: db.transactions, nextId := db.nextId + 1 },
      [Write.insTx t])

/-- Result record of `createProduct`, as returned to the caller
(`{ data, error }`). -/
structure CreateProductResult where
  data : Option Product
  error : Option String
deriving DecidableEq, Repr

/-- `createProduct` (src/unnamed/part_002 lines 493-588): insert the product
row; when the supplied initial quantity is positive, additionally insert the
synthetic initial `in` transaction (amount = initial quantity, notes
`初始库存`, timestamp matching the product's).  A failure of that second
insert is only logged (`console.warn`); the function still returns
`{ data: newProduct, error: null }`. -/
def createProduct (db : DB) (productData : ProductInsert) (now : Int)
    (failProductWrite failTxWrite : Bool) : CreateProductResult × DB × List Write :=
  let newProduct : Product :=
    { id := db.nextId
      name := productData.name
      brand := productData.brand.getD ""
      variant := productData.variant.getD ""
      quantity := productData.quantity.getD 0
      notes := productData.notes.getD ""
      created_at := productData.created_at.getD now }
  if failProductWrite then
    ({ data := none, error := some "创建失败" }, db, [Write.insProduct newProduct])
  else
    let db1 : DB :=
      { db with products := db.products ++ [newProduct], nextId := db.nextId + 1 }
    let initialQty : Int := productData.quantity.getD 0
    if 0 < initialQty then
      let r := createTransaction db1
        { product_id := newProduct.id
          product_name := newProduct.name
          brand := some newProduct.brand
          type := TxType.tin
          amount := initialQty
          notes := some "初始库存"
          created_at := productData.created_at } now failTxWrite
      ({ data := some newProduct, error := none }, r.2.1,
        Write.insProduct newProduct :: r.2.2)
    else
      ({ data := some newProduct, error := none }, db1, [Write.insProduct newProduct])

/-- `handleConfirmAction` of the StockAdjustment page (src/lib/supabase.ts,
second document, lines 204-247), together with the `finalStock` computation of
lines 150-152.  `isAdd` is `operation === 'add'`; the adjusted product is
looked up in the products snapshot as the component does.  Steps: (1) write
`finalStock` to the product; on failure report failure with nothing changed;
(2) insert the transaction with the clamped `actualAmount`; (3) when that
insert fails, write the previous quantity back (`failRollbackWrite` drives
that compensating store write) and report failure. -/
def handleConfirmAction (db : DB) (productId : Nat) (isAdd : Bool)
    (adjustAmount : Int) (notes : String) (customDate : Int) (now : Int)
    (failQtyWrite failTxWrite failRollbackWrite : Bool) : Bool × DB × List Write :=
  match db.products.find? (fun p => decide (p.id = productId)) with
  | none => (false, db, [])
  | some product =>
    let currentStock := product.quantity
    let finalStock :=
      if isAdd then currentStock + adjustAmount
      else max 0 (currentStock - adjustAmount)
    let actualAmount :=
      if isAdd then adjustAmount else min adjustAmount currentStock
    let u := updateProductQuantity db product.id finalStock failQtyWrite
    if u.1 then
      let r := createTransaction u.2.1
        { product_id := product.id
          product_name := product.name
          brand := some product.brand
          type := if isAdd then TxType.tin else TxType.tout
          amount := actualAmount
          notes := some notes
          created_at := some customDate } now failTxWrite
      match r.1 with
      | some _ => (true, r.2.1, u.2.2 ++ r.2.2)
      | none =>
        let u2 := updateProductQuantity r.2.1 product.id currentStock failRollbackWrite
        (false, u2.2.1, u.2.2 ++ r.2.2 ++ u2.2.2)
    else (false, u.2.1, u.2.2)

/-- Result record of `deleteTransaction` (`{ success, error }`). -/
structure DeleteResult where
  success : Bool
  error : Option String
deriving DecidableEq, Repr

/-- `deleteTransaction` (src/unnamed/part_002 lines 753-816): look up the
transaction and its owning product; when the product is present, write the
compensated quantity (aborting, transaction kept, when that write fails);
then delete the transaction row; when the row delete fails, write the
pre-compensation quantity back (the source ignores that restore write's own
error, so `failRestoreWrite` only controls whether the store applies it) and
report failure. -/
def deleteTransaction (db : DB) (transactionId : Nat)
    (failQtyWrite failDeleteWrite failRestoreWrite : Bool) :
    DeleteResult × DB × List Write :=
  match db.transactions.find? (fun t => decide (t.id = transactionId)) with
  | none => ({ success := false, error := some "交易记录不存在" }, db, [])
  | some transaction =>
    match db.products.find? (fun p => decide (p.id = transaction.product_id)) with
    | some product =>
      let adjustment : Int :=
        if transaction.type = TxType.tin then -transaction.amount else transaction.amount
      let newQuantity := max 0 (product.quantity + adjustment)
      let u := updateProductQuantity db product.id newQuantity failQtyWrite
      if u.1 then
        if failDeleteWrite then
          let u2 := updateProductQuantity u.2.1 product.id product.quantity failRestoreWrite
          ({ success := false, error := some "删除交易记录失败，库存已回滚" }, u2.2.1,
            u.2.2 ++ [Write.delTx transactionId] ++ u2.2.2)
        else
          ({ success := true, error := none },
            { u.2.1 with
                transactions := u.2.1.transactions.filter
                  (fun t => decide (t.id ≠ transactionId)) },
            u.2.2 ++ [Write.delTx transactionId])
      else
        ({ success := false, error := some "库存恢复失败，交易记录未删除。请重试。" },
          u.2.1, u.2.2)
    | none =>
      if failDeleteWrite then
        ({ success := false, error := some "删除交易记录失败，库存已回滚" }, db,
          [Write.delTx transactionId])
      else
        ({ success := true, error := none },
          { db with
              transactions := db.transactions.filter
                (fun t => decide (t.id ≠ transactionId)) },
          [Write.delTx transactionId])

/-! ## Ledger sums and the operation trace machine (claim C1) -/

/-- Sum of the `in` amounts of a product's transactions. -/
def inSum (txs : List Tx) (pid : Nat) : Int :=
  match txs with
  | [] => 0
  | t :: ts =>
    (if t.product_id = pid ∧ t.type = TxType.tin then t.amount else 0) + inSum ts pid

/-- Sum of the `out` amounts of a product's transactions. -/
def outSum (txs : List Tx) (pid : Nat) : Int :=
  match txs with
  | [] => 0
  | t :: ts =>
    (if t.product_id = pid ∧ t.type = TxType.tout then t.amount else 0) + outSum ts pid

/-- One user-level operation of the two kinds claim C1 quantifies over. -/
inductive Op where
  | create (productData : ProductInsert) (now : Int)
  | adjust (productId : Nat) (isAdd : Bool) (adjustAmount : Int) (notes : String)
      (customDate : Int) (now : Int)

/-- Execute one operation with every store write succeeding. -/
def applyOp (db : DB) : Op → DB
  | Op.create pd now => (createProduct db pd now false false).2.1
  | Op.adjust pid isAdd amt notes d now =>
    (handleConfirmAction db pid isAdd amt notes d now false false false).2.1

/-- Run a sequence of operations against the empty store. -/
def runOps (ops : List Op) : DB := ops.foldl applyOp DB.empty

/-- Well-formed operation: a created product's initial quantity (after the
source's `|| 0` defaulting) is nonnegative — the add-product form only accepts
digit strings, `parseInt(quantity) || 0`. -/
def opWF : Op → Prop
  | Op.create pd _ => 0 ≤ pd.quantity.getD 0
  | Op.adjust _ _ _ _ _ _ => True

instance : DecidablePred opWF := fun op =>
  match op with
  | Op.create pd _ => inferInstanceAs (Decidable (0 ≤ pd.quantity.getD 0))
  | Op.adjust _ _ _ _ _ _ => inferInstanceAs (Decidable True)

/-- The internal invariant of the machine: every product's snapshot quantity
is the net ledger sum of its transactions, product ids are unique and all ids
mentioned anywhere are below the store's id sequence. -/
def goodState (db : DB) : Prop :=
  (∀ p ∈ db.products, p.quantity = inSum db.transactions p.id - outSum db.transactions p.id) ∧
  (∀ p ∈ db.products, p.id < db.nextId) ∧
  (∀ t ∈ db.transactions, t.product_id < db.nextId) ∧
  db.products.Pairwise (fun a b => a.id ≠ b.id)

/-! ## Analytics (claims C6, C7, C8) -/

/-- JavaScript `Math.round`: round half toward positive infinity. -/
def jsRound (x : ℚ) : Int := Int.floor (x + 1 / 2)

/-- Direction of the monthly consumption trend. -/
inductive Trend where
  | up
  | down
  | stable
deriving DecidableEq, Repr

/-- Trend and reported magnitude from `productStats`
(src/pages/ProductPerformance.tsx lines 61-77), as a function of the
already-aggregated `thisMonthOut` and `lastMonthOut` sums. -/
def computeTrend (thisMonthOut lastMonthOut : Int) : Trend × Int :=
  if 0 < lastMonthOut then
    let change : ℚ :=
      ((thisMonthOut : ℚ) - (lastMonthOut : ℚ)) / (lastMonthOut : ℚ) * 100
    let trendValue : Int := |jsRound change|
    if 5 < change then (Trend.up, trendValue)
    else if change < -5 then (Trend.down, trendValue)
    else (Trend.stable, trendValue)
  else if 0 < thisMonthOut then (Trend.up, 100)
  else (Trend.stable, 0)

/-- Turnover classification. -/
inductive Turnover where
  | high
  | med
  | low
deriving DecidableEq, Repr

/-- Turnover classification from `productStats`
(src/pages/ProductPerformance.tsx lines 79-100).  `outTransactions` keeps the
order of the `transactions` snapshot (newest first as fetched), and the source
takes its last element as the earliest `out` record; `nowMs` is `Date.now()`.
The divisor guarding against a zero average is the source's
`avgMonthlyConsumption || 1`. -/
def turnoverRate (nowMs : Int) (product : Product) (transactions : List Tx) : Turnover :=
  let outTransactions := transactions.filter
    (fun t => decide (t.product_id = product.id ∧ t.type = TxType.tout))
  let totalConsumed : Int := (outTransactions.map (fun t => t.amount)).sum
  let actualMonths : ℚ :=
    match outTransactions.getLast? with
    | none => 1
    | some earliest =>
      max 1 (((nowMs - earliest.created_at : Int) : ℚ) / (1000 * 60 * 60 * 24 * 30 : ℚ))
  let avgMonthlyConsumption : ℚ := (totalConsumed : ℚ) / actualMonths
  if 0 < product.quantity then
    let monthsOfStock : ℚ :=
      (product.quantity : ℚ) /
        (if avgMonthlyConsumption = 0 then 1 else avgMonthlyConsumption)
    if monthsOfStock < 2 then Turnover.high
    else if monthsOfStock < 6 then Turnover.med
    else Turnover.low
  else if 10 < avgMonthlyConsumption then Turnover.high
  else Turnover.low

/-- Net stock change of one product since `monthStart`, from `openingStockData`
(src/pages/History.tsx lines 94-117): the for-loop accumulating
`+amount` for `in` rows and `-amount` for `out` rows dated at or after the
month start. -/
def stockChangeSince (transactions : List Tx) (productId : Nat) (monthStart : Int) : Int :=
  transactions.foldl
    (fun acc t =>
      if t.product_id = productId ∧ monthStart ≤ t.created_at then
        acc + (if t.type = TxType.tin then t.amount else -t.amount)
      else acc) 0

/-- Reconstructed opening quantity of one product
(src/pages/History.tsx: `openingQty = Math.max(0, product.quantity - stockChange)`). -/
def openingQty (product : Product) (transactions : List Tx) (monthStart : Int) : Int :=
  max 0 (product.quantity - stockChangeSince transactions product.id monthStart)

/-- `finalStock` of the StockAdjustment page (src/lib/supabase.ts lines 150-152). -/
def finalStockOf (product : Product) (isAdd : Bool) (adjustAmount : Int) : Int :=
  if isAdd then product.quantity + adjustAmount
  else max 0 (product.quantity - adjustAmount)

/-- The transaction row `handleConfirmAction` inserts (amount clamped for `out`). -/
def adjustTx (db : DB) (product : Product) (isAdd : Bool) (adjustAmount : Int)
    (notes : String) (customDate : Int) : Tx :=
  { id := db.nextId
    product_id := product.id
    product_name := product.name
    brand := product.brand
    type := if isAdd then TxType.tin else TxType.tout
    amount := if isAdd then adjustAmount else min adjustAmount product.quantity
    notes := notes
    created_at := customDate }

/-- The product row `createProduct` inserts. -/
def newProductOf (db : DB) (pd : ProductInsert) (now : Int) : Product :=
  { id := db.nextId
    name := pd.name
    brand := pd.brand.getD ""
    variant := pd.variant.getD ""
    quantity := pd.quantity.getD 0
    notes := pd.notes.getD ""
    created_at := pd.created_at.getD now }

/-- The synthetic initial-stock transaction `createProduct` inserts when the
initial quantity is positive. -/
def initialTx (db : DB) (pd : ProductInsert) (now : Int) : Tx :=
  { id := db.nextId + 1
    product_id := db.nextId
    product_name := pd.name
    brand := pd.brand.getD ""
    type := TxType.tin
    amount := pd.quantity.getD 0
    notes := "初始库存"
    created_at := pd.created_at.getD now }

/-- The compensated quantity `deleteTransaction` writes before deleting the row. -/
def compensatedQty (transaction : Tx) (product : Product) : Int :=
  max 0 (product.quantity +
    (if transaction.type = TxType.tin then -transaction.amount else transaction.amount))

/-- The trend rule exactly as claim C7 words it: for `lastMonthOut > 0` the
*rounded* percentage `pct = round(100·(this − last)/last)` is compared with
±5, and the magnitude is `|pct|`. -/
def computeTrendSpec (thisMonthOut lastMonthOut : Int) : Trend × Int :=
  if lastMonthOut = 0 then
    if 0 < thisMonthOut then (Trend.up, 100) else (Trend.stable, 0)
  else
    let pct : Int :=
      jsRound (((thisMonthOut : ℚ) - (lastMonthOut : ℚ)) / (lastMonthOut : ℚ) * 100)
    (if 5 < pct then Trend.up
      else if pct < -5 then Trend.down
      else Trend.stable, |pct|)

/-- The turnover rule exactly as claim C6 words it: earliest `out` date taken
as the true minimum, and the months-of-stock divisor is
`max(avgMonthlyConsumption, 1)`. -/
def turnoverRateSpec (nowMs : Int) (product : Product) (transactions : List Tx) : Turnover :=
  let outTransactions := transactions.filter
    (fun t => decide (t.product_id = product.id ∧ t.type = TxType.tout))
  let totalConsumed : Int := (outTransactions.map (fun t => t.amount)).sum
  let actualMonths : ℚ :=
    match (outTransactions.map (fun t => t.created_at)).min? with
    | none => 1
    | some earliest =>
      max 1 (((nowMs - earliest : Int) : ℚ) / (1000 * 60 * 60 * 24 * 30 : ℚ))
  let avgMonthlyConsumption : ℚ := (totalConsumed : ℚ) / actualMonths
  if 0 < product.quantity then
    let monthsOfStock : ℚ := (product.quantity : ℚ) / max avgMonthlyConsumption 1
    if monthsOfStock < 2 then Turnover.high
    else if monthsOfStock < 6 then Turnover.med
    else Turnover.low
  else if 10 < avgMonthlyConsumption then Turnover.high
  else Turnover.low

/-- The turnover rule as C6 must be amended: identical to `turnoverRateSpec`
except that the divisor is the source's `avgMonthlyConsumption || 1`, i.e.
the average itself whenever it is nonzero (so a fractional average below 1 is
used as-is, yielding **more** months of stock than the claim's `max(avg,1)`
divisor would). -/
def turnoverRateAmended (nowMs : Int) (product : Product) (transactions : List Tx) : Turnover :=
  let outTransactions := transactions.filter
    (fun t => decide (t.product_id = product.id ∧ t.type = TxType.tout))
  let totalConsumed : Int := (outTransactions.map (fun t => t.amount)).sum
  let actualMonths : ℚ :=
    match (outTransactions.map (fun t => t.created_at)).min? with
    | none => 1
    | some earliest =>
      max 1 (((nowMs - earliest : Int) : ℚ) / (1000 * 60 * 60 * 24 * 30 : ℚ))
  let avgMonthlyConsumption : ℚ := (totalConsumed : ℚ) / actualMonths
  if 0 < product.quantity then
    let monthsOfStock : ℚ := (product.quantity : ℚ) /
      (if avgMonthlyConsumption = 0 then 1 else avgMonthlyConsumption)
    if monthsOfStock < 2 then Turnover.high
    else if monthsOfStock < 6 then Turnover.med
    else Turnover.low
  else if 10 < avgMonthlyConsumption then Turnover.high
  else Turnover.low

/-! ## Helper lemmas -/

theorem inSum_cons (t : Tx) (ts : List Tx) (pid : Nat) :
    inSum (t :: ts) pid =
      (if t.product_id = pid ∧ t.type = TxType.tin then t.amount else 0) + inSum ts pid := rfl

theorem outSum_cons (t : Tx) (ts : List Tx) (pid : Nat) :
    outSum (t :: ts) pid =
      (if t.product_id = pid ∧ t.type = TxType.tout then t.amount else 0) + outSum ts pid := rfl

theorem inSum_eq_zero {ts : List Tx} {pid : Nat} (h : ∀ t ∈ ts, t.product_id ≠ pid) :
    inSum ts pid = 0 := by
  induction ts with
  | nil => rfl
  | cons t ts ih =>
    rw [inSum_cons, if_neg (fun hc => h t (List.mem_cons_self t ts) hc.1),
      ih (fun x hx => h x (List.mem_cons_of_mem _ hx)), add_zero]

theorem outSum_eq_zero {ts : List Tx} {pid : Nat} (h : ∀ t ∈ ts, t.product_id ≠ pid) :
    outSum ts pid = 0 := by
  induction ts with
  | nil => rfl
  | cons t ts ih =>
    rw [outSum_cons, if_neg (fun hc => h t (List.mem_cons_self t ts) hc.1),
      ih (fun x hx => h x (List.mem_cons_of_mem _ hx)), add_zero]

/-- In a list of products with pairwise distinct ids, two members with the
same id are the same product. -/
theorem mem_eq_of_pairwise_ne {l : List Product} {p q : Product}
    (hl : l.Pairwise (fun a b => a.id ≠ b.id)) (hp : p ∈ l) (hq : q ∈ l)
    (h : p.id = q.id) : p = q := by
  induction l with
  | nil => cases hp
  | cons a l ih =>
    obtain ⟨ha, hl'⟩ := List.pairwise_cons.mp hl
    rcases List.mem_cons.mp hp with hp1 | hp1 <;> rcases List.mem_cons.mp hq with hq1 | hq1
    · rw [hp1, hq1]
    · subst hp1; exact absurd h (ha q hq1)
    · subst hq1; exact absurd h.symm (ha p hp1)
    · exact ih hl' hp1 hq1

theorem find?_product_id {l : List Product} {pid : Nat} {p : Product}
    (h : l.find? (fun q => decide (q.id = pid)) = some p) : p.id = pid ∧ p ∈ l := by
  have h1 := List.find?_some h
  exact ⟨of_decide_eq_true h1, List.mem_of_find?_eq_some h⟩

theorem find?_tx_id {l : List Tx} {tid : Nat} {t : Tx}
    (h : l.find? (fun x => decide (x.id = tid)) = some t) : t.id = tid ∧ t ∈ l := by
  have h1 := List.find?_some h
  exact ⟨of_decide_eq_true h1, List.mem_of_find?_eq_some h⟩

/-- Setting a quantity does not change a product's id. -/
theorem setQty_id (p : Product) (pid : Nat) (q : Int) :
    (if p.id = pid then { p with quantity := q } else p).id = p.id := by
  split <;> rfl

theorem map_setQty_of_forall_ne {ps : List Product} {pid : Nat} (q : Int)
    (h : ∀ p ∈ ps, p.id ≠ pid) :
    (ps.map fun p => if p.id = pid then { p with quantity := q } else p) = ps := by
  induction ps with
  | nil => rfl
  | cons a ps ih =>
    rw [List.map_cons, if_neg (h a (List.mem_cons_self a ps)),
      ih (fun x hx => h x (List.mem_cons_of_mem _ hx))]

/-- Writing a quantity and then writing the previously recorded quantity of the
(unique) product with that id restores the original list. -/
theorem map_setQty_rollback {ps : List Product} {pid : Nat} {product : Product} (q1 : Int)
    (hfind : ps.find? (fun p => decide (p.id = pid)) = some product)
    (hnd : ps.Pairwise (fun a b => a.id ≠ b.id)) :
    ((ps.map fun p => if p.id = pid then { p with quantity := q1 } else p).map
      fun p => if p.id = pid then { p with quantity := product.quantity } else p) = ps := by
  obtain ⟨hpid, hpm⟩ := find?_product_id hfind
  rw [List.map_map]
  have hcongr : ∀ p ∈ ps,
      ((fun p => if p.id = pid then { p with quantity := product.quantity } else p) ∘
        (fun p => if p.id = pid then { p with quantity := q1 } else p)) p = p := by
    intro p hp
    by_cases hc : p.id = pid
    · have hpp : p = product := mem_eq_of_pairwise_ne hnd hp hpm (hc.trans hpid.symm)
      subst hpp
      simp only [Function.comp_apply, if_pos hc]
    · simp only [Function.comp_apply, if_neg hc]
  calc ps.map _ = ps.map id := List.map_congr_left hcongr
    _ = ps := List.map_id ps

/-! ## Equation lemmas: explicit results of each operation branch -/

theorem handleConfirmAction_not_found {db : DB} {pid : Nat}
    (hfind : db.products.find? (fun p => decide (p.id = pid)) = none)
    (isAdd : Bool) (amt : Int) (notes : String) (d nowv : Int) (f1 f2 f3 : Bool) :
    handleConfirmAction db pid isAdd amt notes d nowv f1 f2 f3 = (false, db, []) := by
  simp [handleConfirmAction, hfind]

theorem handleConfirmAction_ok {db : DB} {pid : Nat} {product : Product}
    (hfind : db.products.find? (fun p => decide (p.id = pid)) = some product)
    (isAdd : Bool) (amt : Int) (notes : String) (d nowv : Int) (f3 : Bool) :
    handleConfirmAction db pid isAdd amt notes d nowv false false f3 =
      (true,
        { products := db.products.map fun p =>
            if p.id = product.id then
              { p with quantity := finalStockOf product isAdd amt } else p
          transactions := adjustTx db product isAdd amt notes d :: db.transactions
          nextId := db.nextId + 1 },
        [Write.putQty product.id (finalStockOf product isAdd amt),
          Write.insTx (adjustTx db product isAdd amt notes d)]) := by
  simp [handleConfirmAction, hfind, updateProductQuantity, createTransaction,
    adjustTx, finalStockOf]

theorem handleConfirmAction_txFail {db : DB} {pid : Nat} {product : Product}
    (hfind : db.products.find? (fun p => decide (p.id = pid)) = some product)
    (isAdd : Bool) (amt : Int) (notes : String) (d nowv : Int) :
    handleConfirmAction db pid isAdd amt notes d nowv false true false =
      (false,
        { products := (db.products.map fun p =>
            if p.id = product.id then
              { p with quantity := finalStockOf product isAdd amt } else p).map
            fun p => if p.id = product.id then { p with quantity := product.quantity } else p
          transactions := db.transactions
          nextId := db.nextId },
        [Write.putQty product.id (finalStockOf product isAdd amt),
          Write.insTx (adjustTx db product isAdd amt notes d),
          Write.putQty product.id product.quantity]) := by
  simp [handleConfirmAction, hfind, updateProductQuantity, createTransaction,
    adjustTx, finalStockOf]

theorem handleConfirmAction_txFail_rollbackFail {db : DB} {pid : Nat} {product : Product}
    (hfind : db.products.find? (fun p => decide (p.id = pid)) = some product)
    (isAdd : Bool) (amt : Int) (notes : String) (d nowv : Int) :
    handleConfirmAction db pid isAdd amt notes d nowv false true true =
      (false,
        { products := db.products.map fun p =>
            if p.id = product.id then
              { p with quantity := finalStockOf product isAdd amt } else p
          transactions := db.transactions
          nextId := db.nextId },
        [Write.putQty product.id (finalStockOf product isAdd amt),
          Write.insTx (adjustTx db product isAdd amt notes d),
          Write.putQty product.id product.quantity]) := by
  simp [handleConfirmAction, hfind, updateProductQuantity, createTransaction,
    adjustTx, finalStockOf]

theorem handleConfirmAction_qtyFail {db : DB} {pid : Nat} {product : Product}
    (hfind : db.products.find? (fun p => decide (p.id = pid)) = some product)
    (isAdd : Bool) (amt : Int) (notes : String) (d nowv : Int) (f2 f3 : Bool) :
    handleConfirmAction db pid isAdd amt notes d nowv true f2 f3 =
      (false, db, [Write.putQty product.id (finalStockOf product isAdd amt)]) := by
  simp [handleConfirmAction, hfind, updateProductQuantity, finalStockOf]

theorem createProduct_prodFail (db : DB) (pd : ProductInsert) (now : Int) (f2 : Bool) :
    createProduct db pd now true f2 =
      ({ data := none, error := some "创建失败" }, db,
        [Write.insProduct
          { id := db.nextId
            name := pd.name
            brand := pd.brand.getD ""
            variant := pd.variant.getD ""
            quantity := pd.quantity.getD 0
            notes := pd.notes.getD ""
            created_at := pd.created_at.getD now }]) := by
  simp [createProduct]

theorem createProduct_pos {db : DB} {pd : ProductInsert} {now : Int}
    (h : 0 < pd.quantity.getD 0) :
    createProduct db pd now false false =
      ({ data := some (newProductOf db pd now), error := none },
        { products := db.products ++ [newProductOf db pd now]
          transactions := initialTx db pd now :: db.transactions
          nextId := db.nextId + 1 + 1 },
        [Write.insProduct (newProductOf db pd now), Write.insTx (initialTx db pd now)]) := by
  simp [createProduct, createTransaction, newProductOf, initialTx, if_pos h]

theorem createProduct_txFail {db : DB} {pd : ProductInsert} {now : Int}
    (h : 0 < pd.quantity.getD 0) :
    createProduct db pd now false true =
      ({ data := some (newProductOf db pd now), error := none },
        { products := db.products ++ [newProductOf db pd now]
          transactions := db.transactions
          nextId := db.nextId + 1 },
        [Write.insProduct (newProductOf db pd now), Write.insTx (initialTx db pd now)]) := by
  simp [createProduct, createTransaction, newProductOf, initialTx, if_pos h]

theorem createProduct_nonpos {db : DB} {pd : ProductInsert} {now : Int}
    (h : ¬ 0 < pd.quantity.getD 0) (f2 : Bool) :
    createProduct db pd now false f2 =
      ({ data := some (newProductOf db pd now), error := none },
        { products := db.products ++ [newProductOf db pd now]
          transactions := db.transactions
          nextId := db.nextId + 1 },
        [Write.insProduct (newProductOf db pd now)]) := by
  simp [createProduct, newProductOf, if_neg h]

theorem deleteTransaction_tx_not_found {db : DB} {tid : Nat}
    (hfind : db.transactions.find? (fun t => decide (t.id = tid)) = none)
    (f1 f2 f3 : Bool) :
    deleteTransaction db tid f1 f2 f3 =
      ({ success := false, error := some "交易记录不存在" }, db, []) := by
  simp [deleteTransaction, hfind]

theorem deleteTransaction_ok {db : DB} {tid : Nat} {transaction : Tx} {product : Product}
    (hfindT : db.transactions.find? (fun t => decide (t.id = tid)) = some transaction)
    (hfindP : db.products.find? (fun p => decide (p.id = transaction.product_id)) = some product) :
    deleteTransaction db tid false false false =
      ({ success := true, error := none },
        { products := db.products.map fun p =>
            if p.id = product.id then
              { p with quantity := compensatedQty transaction product } else p
          transactions := db.transactions.filter (fun t => decide (t.id ≠ tid))
          nextId := db.nextId },
        [Write.putQty product.id (compensatedQty transaction product), Write.delTx tid]) := by
  simp [deleteTransaction, hfindT, hfindP, updateProductQuantity, compensatedQty]

theorem deleteTransaction_qtyFail {db : DB} {tid : Nat} {transaction : Tx} {product : Product}
    (hfindT : db.transactions.find? (fun t => decide (t.id = tid)) = some transaction)
    (hfindP : db.products.find? (fun p => decide (p.id = transaction.product_id)) = some product)
    (f2 f3 : Bool) :
    deleteTransaction db tid true f2 f3 =
      ({ success := false, error := some "库存恢复失败，交易记录未删除。请重试。" }, db,
        [Write.putQty product.id (compensatedQty transaction product)]) := by
  simp [deleteTransaction, hfindT, hfindP, updateProductQuantity, compensatedQty]

theorem deleteTransaction_delFail {db : DB} {tid : Nat} {transaction : Tx} {product : Product}
    (hfindT : db.transactions.find? (fun t => decide (t.id = tid)) = some transaction)
    (hfindP : db.products.find? (fun p => decide (p.id = transaction.product_id)) = some product) :
    deleteTransaction db tid false true false =
      ({ success := false, error := some "删除交易记录失败，库存已回滚" },
        { products := (db.products.map fun p =>
            if p.id = product.id then
              { p with quantity := compensatedQty transaction product } else p).map
            fun p => if p.id = product.id then { p with quantity := product.quantity } else p
          transactions := db.transactions
          nextId := db.nextId },
        [Write.putQty product.id (compensatedQty transaction product), Write.delTx tid,
          Write.putQty product.id product.quantity]) := by
  simp [deleteTransaction, hfindT, hfindP, updateProductQuantity, compensatedQty]

theorem deleteTransaction_orphan_ok {db : DB} {tid : Nat} {transaction : Tx}
    (hfindT : db.transactions.find? (fun t => decide (t.id = tid)) = some transaction)
    (hfindP : db.products.find? (fun p => decide (p.id = transaction.product_id)) = none)
    (f1 f3 : Bool) :
    deleteTransaction db tid f1 false f3 =
      ({ success := true, error := none },
        { db with transactions := db.transactions.filter (fun t => decide (t.id ≠ tid)) },
        [Write.delTx tid]) := by
  simp [deleteTransaction, hfindT, hfindP]

theorem deleteTransaction_orphan_delFail {db : DB} {tid : Nat} {transaction : Tx}
    (hfindT : db.transactions.find? (fun t => decide (t.id = tid)) = some transaction)
    (hfindP : db.products.find? (fun p => decide (p.id = transaction.product_id)) = none)
    (f1 f3 : Bool) :
    deleteTransaction db tid f1 true f3 =
      ({ success := false, error := some "删除交易记录失败，库存已回滚" }, db,
        [Write.delTx tid]) := by
  simp [deleteTransaction, hfindT, hfindP]

/-! ## Invariant preservation (claim C1) -/

theorem goodState_mk {ps : List Product} {ts : List Tx} {n : Nat}
    (h1 : ∀ p ∈ ps, p.quantity = inSum ts p.id - outSum ts p.id)
    (h2 : ∀ p ∈ ps, p.id < n) (h3 : ∀ t ∈ ts, t.product_id < n)
    (h4 : ps.Pairwise (fun a b => a.id ≠ b.id)) :
    goodState (DB.mk ps ts n) := ⟨h1, h2, h3, h4⟩

theorem goodState_empty : goodState DB.empty := by
  refine ⟨?_, ?_, ?_, ?_⟩ <;> simp [goodState, DB.empty]

theorem goodState_create {db : DB} (h : goodState db) {pd : ProductInsert} {now : Int}
    (hwf : 0 ≤ pd.quantity.getD 0) :
    goodState (createProduct db pd now false false).2.1 := by
  obtain ⟨hbal, hpid, htid, hnd⟩ := h
  have hznew : ∀ t ∈ db.transactions, t.product_id ≠ (newProductOf db pd now).id := by
    intro t ht
    have := htid t ht
    simp only [newProductOf]
    omega
  by_cases hq : 0 < pd.quantity.getD 0
  · rw [createProduct_pos hq]
    refine goodState_mk ?_ ?_ ?_ ?_
    · intro p hp
      rcases List.mem_append.mp hp with hp | hp
      · have hplt := hpid p hp
        have hne : ¬ (initialTx db pd now).product_id = p.id := by
          simp only [initialTx]
          omega
        rw [inSum_cons, outSum_cons, if_neg (fun hc => hne hc.1),
          if_neg (fun hc => hne hc.1)]
        have := hbal p hp
        omega
      · have hp' : p = newProductOf db pd now := List.mem_singleton.mp hp
        subst hp'
        rw [inSum_cons, outSum_cons, inSum_eq_zero hznew, outSum_eq_zero hznew]
        simp [initialTx, newProductOf]
    · intro p hp
      rcases List.mem_append.mp hp with hp | hp
      · have := hpid p hp
        omega
      · have hp' : p = newProductOf db pd now := List.mem_singleton.mp hp
        subst hp'
        simp only [newProductOf]
        omega
    · intro t ht
      rcases List.mem_cons.mp ht with rfl | ht
      · simp only [initialTx]
        omega
      · have := htid t ht
        omega
    · rw [List.pairwise_append]
      refine ⟨hnd, List.pairwise_singleton _ _, ?_⟩
      intro a ha b hb
      have hb' : b = newProductOf db pd now := List.mem_singleton.mp hb
      subst hb'
      have := hpid a ha
      simp only [newProductOf]
      omega
  · rw [createProduct_nonpos hq false]
    have hq0 : pd.quantity.getD 0 = 0 := le_antisymm (not_lt.mp hq) hwf
    refine goodState_mk ?_ ?_ ?_ ?_
    · intro p hp
      rcases List.mem_append.mp hp with hp | hp
      · exact hbal p hp
      · have hp' : p = newProductOf db pd now := List.mem_singleton.mp hp
        subst hp'
        rw [inSum_eq_zero hznew, outSum_eq_zero hznew]
        simp [newProductOf, hq0]
    · intro p hp
      rcases List.mem_append.mp hp with hp | hp
      · have := hpid p hp
        omega
      · have hp' : p = newProductOf db pd now := List.mem_singleton.mp hp
        subst hp'
        simp only [newProductOf]
        omega
    · intro t ht
      have := htid t ht
      omega
    · rw [List.pairwise_append]
      refine ⟨hnd, List.pairwise_singleton _ _, ?_⟩
      intro a ha b hb
      have hb' : b = newProductOf db pd now := List.mem_singleton.mp hb
      subst hb'
      have := hpid a ha
      simp only [newProductOf]
      omega

theorem goodState_adjust {db : DB} (h : goodState db) (pid : Nat) (isAdd : Bool)
    (amt : Int) (notes : String) (d nowv : Int) :
    goodState (handleConfirmAction db pid isAdd amt notes d nowv false false false).2.1 := by
  obtain ⟨hbal, hpid, htid, hnd⟩ := h
  cases hfind : db.products.find? (fun p => decide (p.id = pid)) with
  | none =>
    rw [handleConfirmAction_not_found hfind]
    exact ⟨hbal, hpid, htid, hnd⟩
  | some product =>
    obtain ⟨hprodid, hprodmem⟩ := find?_product_id hfind
    rw [handleConfirmAction_ok hfind]
    refine goodState_mk ?_ ?_ ?_ ?_
    · intro p' hp'
      rw [List.mem_map] at hp'
      obtain ⟨p, hp, rfl⟩ := hp'
      rw [setQty_id, inSum_cons, outSum_cons]
      by_cases hc : p.id = product.id
      · obtain rfl : p = product := mem_eq_of_pairwise_ne hnd hp hprodmem hc
        rw [if_pos hc]
        have hq := hbal p hp
        cases isAdd
        · have h1 : ((adjustTx db p false amt notes d).product_id = p.id ∧
              (adjustTx db p false amt notes d).type = TxType.tin) ↔ False := by
            simp [adjustTx]
          have h2 : ((adjustTx db p false amt notes d).product_id = p.id ∧
              (adjustTx db p false amt notes d).type = TxType.tout) ↔ True := by
            simp [adjustTx]
          rw [if_neg (h1.not.mpr not_false), if_pos (h2.mpr trivial)]
          show max 0 (p.quantity - amt) =
            0 + inSum db.transactions p.id -
              ((adjustTx db p false amt notes d).amount + outSum db.transactions p.id)
          have h3 : (adjustTx db p false amt notes d).amount = min amt p.quantity := rfl
          rw [h3]
          omega
        · have h1 : ((adjustTx db p true amt notes d).product_id = p.id ∧
              (adjustTx db p true amt notes d).type = TxType.tin) ↔ True := by
            simp [adjustTx]
          have h2 : ((adjustTx db p true amt notes d).product_id = p.id ∧
              (adjustTx db p true amt notes d).type = TxType.tout) ↔ False := by
            simp [adjustTx]
          rw [if_pos (h1.mpr trivial), if_neg (h2.not.mpr not_false)]
          show p.quantity + amt =
            (adjustTx db p true amt notes d).amount + inSum db.transactions p.id -
              (0 + outSum db.transactions p.id)
          have h3 : (adjustTx db p true amt notes d).amount = amt := rfl
          rw [h3]
          omega
      · rw [if_neg hc]
        have hne : ¬ (adjustTx db product isAdd amt notes d).product_id = p.id := by
          show ¬ product.id = p.id
          exact fun hcc => hc hcc.symm
        rw [if_neg (fun hcc => hne hcc.1), if_neg (fun hcc => hne hcc.1)]
        have := hbal p hp
        omega
    · intro p' hp'
      rw [List.mem_map] at hp'
      obtain ⟨p, hp, rfl⟩ := hp'
      rw [setQty_id]
      have := hpid p hp
      omega
    · intro t ht
      rcases List.mem_cons.mp ht with rfl | ht
      · show product.id < db.nextId + 1
        have := hpid product hprodmem
        omega
      · have := htid t ht
        omega
    · rw [List.pairwise_map]
      refine hnd.imp ?_
      intro a b hab
      rw [setQty_id, setQty_id]
      exact hab

theorem goodState_applyOp {db : DB} {op : Op} (h : goodState db) (hwf : opWF op) :
    goodState (applyOp db op) := by
  cases op with
  | create pd now => exact goodState_create h hwf
  | adjust pid isAdd amt notes d now => exact goodState_adjust h pid isAdd amt notes d now

theorem goodState_foldl {db : DB} {ops : List Op} (h : goodState db)
    (hwf : ∀ op ∈ ops, opWF op) : goodState (ops.foldl applyOp db) := by
  induction ops generalizing db with
  | nil => exact h
  | cons op ops ih =>
    exact ih (goodState_applyOp h (hwf op (List.mem_cons_self op ops)))
      (fun x hx => hwf x (List.mem_cons_of_mem _ hx))

/-! ## Claim C1 -/

/-- Claim C1 (confirmed).  For every sequence of Create Product / Adjust Stock
operations in which no store write fails (the trace machine `runOps` runs every
operation with all failure flags off) and in which supplied initial quantities
are nonnegative (`opWF`; the add-product form only accepts digit strings), at
every point — i.e. after any `pre` of a split `pre ++ rest` of the sequence —
every product's quantity equals Σ(`in` amounts) − Σ(`out` amounts) over that
product's transactions.  The initial quantity participates in that sum as the
synthetic initial `in` transaction written at creation, so the total equals
initialQuantity + Σ(later `in`) − Σ(`out`), which is the claimed formula. -/
theorem c1_ledger_invariant (pre rest : List Op)
    (hwf : ∀ op ∈ pre ++ rest, opWF op) :
    ∀ p ∈ (runOps pre).products,
      p.quantity =
        inSum (runOps pre).transactions p.id - outSum (runOps pre).transactions p.id :=
  (goodState_foldl goodState_empty
    (fun op hop => hwf op (List.mem_append_left rest hop))).1

/-- Witness for C1: create a product with initial quantity 10, then withdraw
15; the invariant holds for every product of the resulting state. -/
theorem c1_ledger_invariant_witness :
    ((runOps [Op.create { name := "洗发水", quantity := some 10 } 0,
        Op.adjust 0 false 15 "补录" 1 1]).products.all fun p =>
      decide (p.quantity =
        inSum (runOps [Op.create { name := "洗发水", quantity := some 10 } 0,
            Op.adjust 0 false 15 "补录" 1 1]).transactions p.id -
          outSum (runOps [Op.create { name := "洗发水", quantity := some 10 } 0,
            Op.adjust 0 false 15 "补录" 1 1]).transactions p.id)) = true := by
  rw [List.all_eq_true]
  intro p hp
  exact decide_eq_true
    (c1_ledger_invariant
      [Op.create { name := "洗发水", quantity := some 10 } 0,
        Op.adjust 0 false 15 "补录" 1 1] [] (by decide) p hp)

/-! ## Claim C2 -/

/-- Claim C2 (confirmed).  An `out` adjustment whose requested amount exceeds
the product's current quantity (no store write failing) reports success,
records a transaction whose amount is the current quantity — the effective
amount `min(requestedAmount, currentQuantity)`, not the raw request — and
leaves every products-list entry with the adjusted id at quantity exactly 0. -/
theorem c2_clamped_withdrawal {db : DB} {pid : Nat} {product : Product}
    (hfind : db.products.find? (fun p => decide (p.id = pid)) = some product)
    {amt : Int} (hover : product.quantity < amt) (notes : String) (d nowv : Int) :
    (handleConfirmAction db pid false amt notes d nowv false false false).1 = true ∧
    (∃ t, (handleConfirmAction db pid false amt notes d nowv false false false).2.1.transactions
        = t :: db.transactions ∧
      t.type = TxType.tout ∧ t.amount = product.quantity) ∧
    ∀ p ∈ (handleConfirmAction db pid false amt notes d nowv false false false).2.1.products,
      p.id = product.id → p.quantity = 0 := by
  rw [handleConfirmAction_ok hfind]
  refine ⟨rfl, ⟨adjustTx db product false amt notes d, rfl, rfl, ?_⟩, ?_⟩
  · show min amt product.quantity = product.quantity
    omega
  · intro p hp hpid2
    simp only [List.mem_map] at hp
    obtain ⟨q, hq, rfl⟩ := hp
    rw [setQty_id] at hpid2
    rw [if_pos hpid2]
    show max 0 (product.quantity - amt) = 0
    omega

/-- Witness for C2: product with quantity 2, withdrawal of 7. -/
theorem c2_clamped_withdrawal_witness :
    (2 : Int) < 7 ∧
    (handleConfirmAction (DB.mk [Product.mk 3 "发蜡" "" "" 2 "" 0] [] 5)
      3 false 7 "" 1 1 false false false).1 = true :=
  ⟨by decide,
    (@c2_clamped_withdrawal (DB.mk [Product.mk 3 "发蜡" "" "" 2 "" 0] [] 5) 3
      (Product.mk 3 "发蜡" "" "" 2 "" 0) rfl 7 (by decide) "" 1 1).1⟩

/-! ## Claim C3 -/

/-- Claim C3 (confirmed).  For an Adjust Stock operation in which the
product-quantity writes succeed but the transaction write fails (flags:
quantity write ok, transaction insert fails, compensating write ok), the
engine rewrites the product's quantity back to its pre-adjustment value and
reports failure: the result flag is `false` and both the products list and
the transactions list are exactly as before the operation.  Product ids are
assumed pairwise distinct, as the store's id sequence guarantees. -/
theorem c3_adjust_compensation {db : DB} {pid : Nat} {product : Product}
    (hfind : db.products.find? (fun p => decide (p.id = pid)) = some product)
    (hnd : db.products.Pairwise (fun a b => a.id ≠ b.id))
    (isAdd : Bool) (amt : Int) (notes : String) (d nowv : Int) :
    (handleConfirmAction db pid isAdd amt notes d nowv false true false).1 = false ∧
    (handleConfirmAction db pid isAdd amt notes d nowv false true false).2.1.products
      = db.products ∧
    (handleConfirmAction db pid isAdd amt notes d nowv false true false).2.1.transactions
      = db.transactions := by
  obtain ⟨hprodid, hprodmem⟩ := find?_product_id hfind
  have hfind' : db.products.find? (fun p => decide (p.id = product.id)) = some product := by
    simp only [hprodid]
    exact hfind
  rw [handleConfirmAction_txFail hfind]
  exact ⟨rfl, map_setQty_rollback (finalStockOf product isAdd amt) hfind' hnd, rfl⟩

/-- Witness for C3: quantity write succeeds, transaction write fails, rollback
succeeds — the products list is exactly the original one. -/
theorem c3_adjust_compensation_witness :
    (handleConfirmAction (DB.mk [Product.mk 3 "发蜡" "" "" 2 "" 0] [] 5)
        3 true 4 "" 1 1 false true false).2.1.products
      = [Product.mk 3 "发蜡" "" "" 2 "" 0] :=
  (@c3_adjust_compensation (DB.mk [Product.mk 3 "发蜡" "" "" 2 "" 0] [] 5) 3
    (Product.mk 3 "发蜡" "" "" 2 "" 0) rfl (by simp) true 4 "" 1 1).2.1

/-! ## Claim C4 -/

/-- Claim C4 (confirmed).  For a Delete Transaction on an existing transaction
of amount A whose owning product is present (ids pairwise distinct): with no
write failing, it succeeds, rewrites the owning product's quantity to
`max 0 (quantity − A)` for an `in` transaction and to `max 0 (quantity + A)`
for an `out` transaction, and removes the row; if the compensating quantity
write fails, the operation fails and the whole state — in particular the
transaction row — is untouched; if the row delete fails (restore write
succeeding), the operation fails and both the products and the transactions
are exactly as before. -/
theorem c4_delete_reversal {db : DB} {tid : Nat} {transaction : Tx} {product : Product}
    (hfindT : db.transactions.find? (fun t => decide (t.id = tid)) = some transaction)
    (hfindP : db.products.find? (fun p => decide (p.id = transaction.product_id)) = some product)
    (hnd : db.products.Pairwise (fun a b => a.id ≠ b.id)) :
    ((deleteTransaction db tid false false false).1.success = true ∧
      (∀ p ∈ (deleteTransaction db tid false false false).2.1.products, p.id = product.id →
        (transaction.type = TxType.tin →
          p.quantity = max 0 (product.quantity - transaction.amount)) ∧
        (transaction.type = TxType.tout →
          p.quantity = max 0 (product.quantity + transaction.amount))) ∧
      (deleteTransaction db tid false false false).2.1.transactions
        = db.transactions.filter (fun t => decide (t.id ≠ tid))) ∧
    (∀ f2 f3, (deleteTransaction db tid true f2 f3).1.success = false ∧
      (deleteTransaction db tid true f2 f3).2.1 = db) ∧
    ((deleteTransaction db tid false true false).1.success = false ∧
      (deleteTransaction db tid false true false).2.1.products = db.products ∧
      (deleteTransaction db tid false true false).2.1.transactions = db.transactions) := by
  obtain ⟨hprodid, hprodmem⟩ := find?_product_id hfindP
  have hfindP' : db.products.find? (fun p => decide (p.id = product.id)) = some product := by
    simp only [hprodid]
    exact hfindP
  refine ⟨?_, ?_, ?_⟩
  · rw [deleteTransaction_ok hfindT hfindP]
    refine ⟨rfl, ?_, rfl⟩
    intro p hp hpid2
    simp only [List.mem_map] at hp
    obtain ⟨q, hq, rfl⟩ := hp
    rw [setQty_id] at hpid2
    rw [if_pos hpid2]
    constructor
    · intro htin
      show compensatedQty transaction product = _
      simp only [compensatedQty, htin, if_pos]
      omega
    · intro htout
      show compensatedQty transaction product = _
      simp only [compensatedQty, htout]
      rfl
  · intro f2 f3
    rw [deleteTransaction_qtyFail hfindT hfindP f2 f3]
    exact ⟨rfl, rfl⟩
  · rw [deleteTransaction_delFail hfindT hfindP]
    exact ⟨rfl, map_setQty_rollback (compensatedQty transaction product) hfindP' hnd, rfl⟩

/-- Witness for C4: deleting the initial `in` transaction of amount 10 from a
product at quantity 10 succeeds. -/
theorem c4_delete_reversal_witness :
    (deleteTransaction (DB.mk [Product.mk 0 "洗发水" "" "" 10 "" 0]
        [Tx.mk 1 0 "洗发水" "" TxType.tin 10 "初始库存" 0] 2) 1 false false false).1.success
      = true :=
  (@c4_delete_reversal (DB.mk [Product.mk 0 "洗发水" "" "" 10 "" 0]
      [Tx.mk 1 0 "洗发水" "" TxType.tin 10 "初始库存" 0] 2) 1
    (Tx.mk 1 0 "洗发水" "" TxType.tin 10 "初始库存" 0)
    (Product.mk 0 "洗发水" "" "" 10 "" 0) rfl rfl (by simp)).1.1

/-! ## Claim C10 -/

/-- Claim C10 (confirmed).  Calling `deleteTransaction` with the id of an
existing transaction whose owning product is absent from the products snapshot
deletes the transaction row, performs no product-quantity write of any kind
(the write log is exactly the single row delete, whatever the two
quantity-write failure flags would have said), and reports success. -/
theorem c10_orphan_delete {db : DB} {tid : Nat} {transaction : Tx}
    (hfindT : db.transactions.find? (fun t => decide (t.id = tid)) = some transaction)
    (hfindP : db.products.find? (fun p => decide (p.id = transaction.product_id)) = none)
    (f1 f3 : Bool) :
    (deleteTransaction db tid f1 false f3).1.success = true ∧
    (deleteTransaction db tid f1 false f3).1.error = none ∧
    (deleteTransaction db tid f1 false f3).2.1.products = db.products ∧
    (deleteTransaction db tid f1 false f3).2.1.transactions
      = db.transactions.filter (fun t => decide (t.id ≠ tid)) ∧
    (deleteTransaction db tid f1 false f3).2.2 = [Write.delTx tid] := by
  rw [deleteTransaction_orphan_ok hfindT hfindP f1 f3]
  exact ⟨rfl, rfl, rfl, rfl, rfl⟩

/-- Witness for C10: a transaction whose `product_id` matches no product; the
only store write is the row delete. -/
theorem c10_orphan_delete_witness :
    (deleteTransaction (DB.mk [] [Tx.mk 2 7 "洗发水" "" TxType.tout 3 "" 0] 5)
        2 true false true).2.2 = [Write.delTx 2] :=
  (@c10_orphan_delete (DB.mk [] [Tx.mk 2 7 "洗发水" "" TxType.tout 3 "" 0] 5) 2
    (Tx.mk 2 7 "洗发水" "" TxType.tout 3 "" 0) rfl rfl true true).2.2.2.2

/-! ## Claim C5 -/

/-- Counterexample for C5.  The claim asserts the failed synthetic-transaction
write is "surfaced to the caller as a partial-success warning".  It is not: at
this concrete input the result record returned when the transaction write
fails is literally identical to the one returned on full success, its `error`
field is `null`, and nothing else reaches the caller — while the store indeed
holds a product of quantity 10 and no transaction.  (The source only emits
`console.warn`.) -/
theorem c5_counterexample :
    (createProduct (DB.mk [] [] 0) { name := "洗发水", quantity := some 10 } 0 false true).1
      = (createProduct (DB.mk [] [] 0) { name := "洗发水", quantity := some 10 } 0
          false false).1 ∧
    (createProduct (DB.mk [] [] 0) { name := "洗发水", quantity := some 10 } 0
        false true).1.error = none ∧
    (createProduct (DB.mk [] [] 0) { name := "洗发水", quantity := some 10 } 0
        false true).2.1.transactions = [] ∧
    (createProduct (DB.mk [] [] 0) { name := "洗发水", quantity := some 10 } 0
        false true).2.1.products = [Product.mk 0 "洗发水" "" "" 10 "" 0] :=
  ⟨rfl, rfl, rfl, rfl⟩

/-- Claim C5 as amended (proved).  When the product write succeeds and the
synthetic initial `in` transaction write fails for an initial quantity > 0,
the creation is still reported successful (`data` set, `error = null`) and the
product exists with its nonzero quantity and no backing ledger entry; but the
failure is only logged to the console, not surfaced to the caller: the
returned result is indistinguishable from the full-success result. -/
theorem c5_create_partial_failure {db : DB} {pd : ProductInsert} {now : Int}
    (h : 0 < pd.quantity.getD 0) :
    (createProduct db pd now false true).1.error = none ∧
    (createProduct db pd now false true).1.data = some (newProductOf db pd now) ∧
    0 < (newProductOf db pd now).quantity ∧
    (createProduct db pd now false true).2.1.products
      = db.products ++ [newProductOf db pd now] ∧
    (createProduct db pd now false true).2.1.transactions = db.transactions ∧
    (createProduct db pd now false true).1 = (createProduct db pd now false false).1 := by
  rw [createProduct_txFail h, createProduct_pos h]
  exact ⟨rfl, rfl, h, rfl, rfl, rfl⟩

/-- Witness for C5's amended claim at a concrete input. -/
theorem c5_create_partial_failure_witness :
    (createProduct (DB.mk [] [] 3) { name := "护发素", quantity := some 7 } 2
        false true).2.1.transactions = ([] : List Tx) :=
  (@c5_create_partial_failure (DB.mk [] [] 3) { name := "护发素", quantity := some 7 } 2
    (by decide)).2.2.2.2.1

/-! ## Claim C9 -/

/-- Counterexample for C9.  The claim asserts every written transaction has
`amount > 0` for all inputs "including an `out` adjustment requested against a
product whose current quantity is 0".  Precisely that input refutes it: an
`out` adjustment of 5 against a product of quantity 0 clamps the effective
amount to `min(5, 0) = 0` and records a transaction with `amount = 0`. -/
theorem c9_counterexample :
    ∃ t ∈ (handleConfirmAction (DB.mk [Product.mk 0 "发胶" "" "" 0 "" 0] [] 1)
        0 false 5 "" 0 0 false false false).2.1.transactions,
      t.amount = 0 ∧ t.type = TxType.tout := by decide

/-- Claim C9 as amended (proved).  Transaction records are typed `in`/`out` by
construction, and their amounts satisfy: (1) Create Product's synthetic
initial entry always has `amount > 0` and type `in` (it is only written when
the initial quantity is positive); (2) `createTransaction` records exactly
the amount it is given (so its callers decide positivity); (3) Adjust Stock
records `amount ≥ 0` whenever the requested amount and the products' current
quantities are nonnegative — with `amount = 0` possible, exactly as in the
counterexample, so `> 0` cannot be claimed. -/
theorem c9_amounts :
    (∀ (db : DB) (pd : ProductInsert) (nowv : Int) (f1 f2 : Bool) (t : Tx),
      Write.insTx t ∈ (createProduct db pd nowv f1 f2).2.2 →
        0 < t.amount ∧ t.type = TxType.tin) ∧
    (∀ (db : DB) (ti : TxInsert) (nowv : Int) (f : Bool) (t : Tx),
      Write.insTx t ∈ (createTransaction db ti nowv f).2.2 →
        t.amount = ti.amount ∧ t.type = ti.type) ∧
    (∀ (db : DB) (pid : Nat) (isAdd : Bool) (amt : Int) (notes : String) (d nowv : Int)
      (f1 f2 f3 : Bool) (t : Tx), 0 ≤ amt → (∀ p ∈ db.products, 0 ≤ p.quantity) →
      Write.insTx t ∈ (handleConfirmAction db pid isAdd amt notes d nowv f1 f2 f3).2.2 →
        0 ≤ t.amount) := by
  refine ⟨?_, ?_, ?_⟩
  · intro db pd nowv f1 f2 t ht
    cases f1
    · by_cases hq : 0 < pd.quantity.getD 0
      · have hmem : Write.insTx t ∈
            [Write.insProduct (newProductOf db pd nowv), Write.insTx (initialTx db pd nowv)] := by
          cases f2
          · rw [createProduct_pos hq] at ht
            exact ht
          · rw [createProduct_txFail hq] at ht
            exact ht
        rcases List.mem_cons.mp hmem with h | h
        · exact Write.noConfusion h
        · obtain rfl := Write.insTx.inj (List.mem_singleton.mp h)
          exact ⟨hq, rfl⟩
      · rw [createProduct_nonpos hq f2] at ht
        exact Write.noConfusion (List.mem_singleton.mp ht)
    · rw [createProduct_prodFail db pd nowv f2] at ht
      exact Write.noConfusion (List.mem_singleton.mp ht)
  · intro db ti nowv f t ht
    have hw : (createTransaction db ti nowv f).2.2 =
        [Write.insTx
          { id := db.nextId
            product_id := ti.product_id
            product_name := ti.product_name
            brand := ti.brand.getD ""
            type := ti.type
            amount := ti.amount
            notes := ti.notes.getD ""
            created_at := ti.created_at.getD nowv }] := by
      cases f <;> rfl
    rw [hw] at ht
    obtain rfl := Write.insTx.inj (List.mem_singleton.mp ht)
    exact ⟨rfl, rfl⟩
  · intro db pid isAdd amt notes d nowv f1 f2 f3 t hamt hq ht
    cases hfind : db.products.find? (fun p => decide (p.id = pid)) with
    | none =>
      rw [handleConfirmAction_not_found hfind] at ht
      exact absurd ht (List.not_mem_nil _)
    | some product =>
      obtain ⟨hprodid, hprodmem⟩ := find?_product_id hfind
      have hq0 : 0 ≤ product.quantity := hq product hprodmem
      have hadj : t = adjustTx db product isAdd amt notes d →
          0 ≤ t.amount := by
        rintro rfl
        cases isAdd
        · show 0 ≤ min amt product.quantity
          omega
        · exact hamt
      cases f1
      · cases f2
        · rw [handleConfirmAction_ok hfind isAdd amt notes d nowv f3] at ht
          rcases List.mem_cons.mp ht with h | h
          · exact Write.noConfusion h
          · exact hadj (Write.insTx.inj (List.mem_singleton.mp h))
        · have hmem : Write.insTx t ∈
              [Write.putQty product.id (finalStockOf product isAdd amt),
                Write.insTx (adjustTx db product isAdd amt notes d),
                Write.putQty product.id product.quantity] := by
            cases f3
            · rw [handleConfirmAction_txFail hfind isAdd amt notes d nowv] at ht
              exact ht
            · rw [handleConfirmAction_txFail_rollbackFail hfind isAdd amt notes d nowv] at ht
              exact ht
          rcases List.mem_cons.mp hmem with h | h
          · exact Write.noConfusion h
          · rcases List.mem_cons.mp h with h2 | h2
            · exact hadj (Write.insTx.inj h2)
            · exact Write.noConfusion (List.mem_singleton.mp h2)
      · rw [handleConfirmAction_qtyFail hfind isAdd amt notes d nowv f2 f3] at ht
        exact Write.noConfusion (List.mem_singleton.mp ht)

/-- Witness for C9's amended claim: at the counterexample input the recorded
amount is `0`, which satisfies `≥ 0`. -/
theorem c9_amounts_witness :
    (0 : Int) ≤ (Tx.mk 1 0 "发胶" "" TxType.tout 0 "" 0).amount :=
  c9_amounts.2.2 (DB.mk [Product.mk 0 "发胶" "" "" 0 "" 0] [] 1) 0 false 5 "" 0 0
    false false false (Tx.mk 1 0 "发胶" "" TxType.tout 0 "" 0)
    (by decide) (by decide) (by decide)

/-! ## Claim C8 -/

/-- The for-loop accumulation of `openingStockData` equals
Σ(`in` amounts) − Σ(`out` amounts) over this product's transactions dated at
or after the month start. -/
theorem stockChangeSince_eq (txs : List Tx) (pid : Nat) (ms : Int) :
    stockChangeSince txs pid ms =
      inSum (txs.filter fun t => decide (ms ≤ t.created_at)) pid -
        outSum (txs.filter fun t => decide (ms ≤ t.created_at)) pid := by
  have main : ∀ (l : List Tx) (acc : Int),
      l.foldl (fun acc t =>
        if t.product_id = pid ∧ ms ≤ t.created_at then
          acc + (if t.type = TxType.tin then t.amount else -t.amount)
        else acc) acc
      = acc + (inSum (l.filter fun t => decide (ms ≤ t.created_at)) pid -
          outSum (l.filter fun t => decide (ms ≤ t.created_at)) pid) := by
    intro l
    induction l with
    | nil =>
      intro acc
      simp [inSum, outSum]
    | cons t l ih =>
      intro acc
      rw [List.foldl_cons, List.filter_cons]
      by_cases hd : ms ≤ t.created_at
      · have hdd : decide (ms ≤ t.created_at) = true := decide_eq_true hd
        rw [if_pos hdd, inSum_cons, outSum_cons]
        by_cases hp : t.product_id = pid
        · rw [if_pos (show t.product_id = pid ∧ ms ≤ t.created_at from ⟨hp, hd⟩), ih]
          cases htype : t.type
          · rw [if_pos (show t.product_id = pid ∧ TxType.tin = TxType.tin from ⟨hp, rfl⟩),
              if_neg (show ¬(t.product_id = pid ∧ TxType.tin = TxType.tout) from
                fun hc => TxType.noConfusion hc.2),
              if_pos (show TxType.tin = TxType.tin from rfl)]
            omega
          · rw [if_neg (show ¬(t.product_id = pid ∧ TxType.tout = TxType.tin) from
                fun hc => TxType.noConfusion hc.2),
              if_pos (show t.product_id = pid ∧ TxType.tout = TxType.tout from ⟨hp, rfl⟩),
              if_neg (show ¬TxType.tout = TxType.tin from fun hc => TxType.noConfusion hc)]
            omega
        · rw [if_neg (show ¬(t.product_id = pid ∧ ms ≤ t.created_at) from fun hc => hp hc.1),
            if_neg (show ¬(t.product_id = pid ∧ t.type = TxType.tin) from fun hc => hp hc.1),
            if_neg (show ¬(t.product_id = pid ∧ t.type = TxType.tout) from fun hc => hp hc.1),
            ih]
          omega
      · rw [if_neg (show ¬decide (ms ≤ t.created_at) = true by simpa using hd),
          if_neg (show ¬(t.product_id = pid ∧ ms ≤ t.created_at) from fun hc => hd hc.2), ih]
  rw [stockChangeSince, main, zero_add]

/-- Claim C8 (confirmed).  The reconstructed opening stock equals
`max 0 (currentQty − netChange)` where `netChange = Σ(in) − Σ(out)` over the
product's transactions with `created_at ≥ monthStart`; and when the product
has no transaction dated at or after the month start (its quantity being
nonnegative, as the engine maintains), the opening quantity equals the
current quantity. -/
theorem c8_opening_stock (product : Product) (txs : List Tx) (ms : Int) :
    openingQty product txs ms =
      max 0 (product.quantity -
        (inSum (txs.filter fun t => decide (ms ≤ t.created_at)) product.id -
          outSum (txs.filter fun t => decide (ms ≤ t.created_at)) product.id)) ∧
    ((∀ t ∈ txs, t.product_id = product.id → t.created_at < ms) →
      0 ≤ product.quantity → openingQty product txs ms = product.quantity) := by
  constructor
  · rw [openingQty, stockChangeSince_eq]
  · intro hnone hq
    have hz : ∀ t ∈ txs.filter (fun t => decide (ms ≤ t.created_at)),
        t.product_id ≠ product.id := by
      intro t ht hc
      obtain ⟨htm, htd⟩ := List.mem_filter.mp ht
      have hd : ms ≤ t.created_at := of_decide_eq_true htd
      have := hnone t htm hc
      omega
    rw [openingQty, stockChangeSince_eq, inSum_eq_zero hz, outSum_eq_zero hz]
    omega

/-- Witness for C8: a product at quantity 5 with its only transaction dated
before the month start reconstructs an opening quantity of 5. -/
theorem c8_opening_stock_witness :
    openingQty (Product.mk 0 "洗发水" "" "" 5 "" 0)
      [Tx.mk 1 0 "洗发水" "" TxType.tin 5 "初始库存" 50] 100 = 5 :=
  (c8_opening_stock (Product.mk 0 "洗发水" "" "" 5 "" 0)
    [Tx.mk 1 0 "洗发水" "" TxType.tin 5 "初始库存" 50] 100).2 (by decide) (by decide)

/-! ## Claim C7 -/

/-- Counterexample for C7 at `thisMonthOut = 20`, `lastMonthOut = 19`: the
percentage change is 100/19 ≈ 5.26, so `pct = round(5.26) = 5` and the claim's
rule (`up` exactly when `pct > 5`) yields `stable`; the code compares the
*unrounded* change (5.26 > 5) and reports `up`.  Both report magnitude 5. -/
theorem c7_counterexample :
    computeTrend 20 19 = (Trend.up, 5) ∧ computeTrendSpec 20 19 = (Trend.stable, 5) := by
  constructor
  · simp only [computeTrend, jsRound]
    norm_num
  · simp only [computeTrendSpec, jsRound]
    norm_num

/-- Claim C7 as amended (proved).  When `lastMonthOut = 0` the trend is `up`
with magnitude 100 for `thisMonthOut > 0` and otherwise `stable` with 0.  When
`lastMonthOut > 0`, the trend compares the **unrounded** percentage with ±5:
it is `up` exactly when `100·(thisMonthOut − lastMonthOut) > 5·lastMonthOut`,
`down` exactly when `100·(thisMonthOut − lastMonthOut) < −5·lastMonthOut`,
and `stable` otherwise; the reported magnitude is `|round(100·(this −
last)/last)|` as claimed. -/
theorem c7_trend (thisMonthOut lastMonthOut : Int) :
    (lastMonthOut = 0 →
      computeTrend thisMonthOut lastMonthOut =
        if 0 < thisMonthOut then (Trend.up, 100) else (Trend.stable, 0)) ∧
    (0 < lastMonthOut →
      ((computeTrend thisMonthOut lastMonthOut).1 = Trend.up ↔
        5 * lastMonthOut < 100 * (thisMonthOut - lastMonthOut)) ∧
      ((computeTrend thisMonthOut lastMonthOut).1 = Trend.down ↔
        100 * (thisMonthOut - lastMonthOut) < -5 * lastMonthOut) ∧
      ((computeTrend thisMonthOut lastMonthOut).1 = Trend.stable ↔
        (¬ 5 * lastMonthOut < 100 * (thisMonthOut - lastMonthOut) ∧
          ¬ 100 * (thisMonthOut - lastMonthOut) < -5 * lastMonthOut)) ∧
      (computeTrend thisMonthOut lastMonthOut).2 =
        |jsRound (((thisMonthOut : ℚ) - (lastMonthOut : ℚ)) / (lastMonthOut : ℚ) * 100)|) := by
  constructor
  · intro h0
    rw [computeTrend, if_neg (by omega)]
  · intro hpos
    have hb : (0 : ℚ) < (lastMonthOut : ℚ) := by exact_mod_cast hpos
    have key1 : 5 < ((thisMonthOut : ℚ) - (lastMonthOut : ℚ)) / (lastMonthOut : ℚ) * 100 ↔
        5 * lastMonthOut < 100 * (thisMonthOut - lastMonthOut) := by
      rw [div_mul_eq_mul_div, lt_div_iff₀ hb]
      constructor
      · intro h
        have h2 : ((5 * lastMonthOut : Int) : ℚ) <
            ((100 * (thisMonthOut - lastMonthOut) : Int) : ℚ) := by
          push_cast
          linarith
        exact_mod_cast h2
      · intro h
        have h2 : ((5 * lastMonthOut : Int) : ℚ) <
            ((100 * (thisMonthOut - lastMonthOut) : Int) : ℚ) := by exact_mod_cast h
        push_cast at h2
        linarith
    have key2 : ((thisMonthOut : ℚ) - (lastMonthOut : ℚ)) / (lastMonthOut : ℚ) * 100 < -5 ↔
        100 * (thisMonthOut - lastMonthOut) < -5 * lastMonthOut := by
      rw [div_mul_eq_mul_div, div_lt_iff₀ hb]
      constructor
      · intro h
        have h2 : ((100 * (thisMonthOut - lastMonthOut) : Int) : ℚ) <
            ((-5 * lastMonthOut : Int) : ℚ) := by
          push_cast
          linarith
        exact_mod_cast h2
      · intro h
        have h2 : ((100 * (thisMonthOut - lastMonthOut) : Int) : ℚ) <
            ((-5 * lastMonthOut : Int) : ℚ) := by exact_mod_cast h
        push_cast at h2
        linarith
    rw [computeTrend, if_pos hpos]
    by_cases h1 : 5 < ((thisMonthOut : ℚ) - (lastMonthOut : ℚ)) / (lastMonthOut : ℚ) * 100
    · rw [if_pos h1]
      refine ⟨⟨fun _ => key1.mp h1, fun _ => rfl⟩,
        ⟨fun hc => Trend.noConfusion hc, fun hc => absurd (key2.mpr hc) (by linarith)⟩,
        ⟨fun hc => Trend.noConfusion hc, fun hc => absurd (key1.mp h1) hc.1⟩, rfl⟩
    · by_cases h2 : ((thisMonthOut : ℚ) - (lastMonthOut : ℚ)) / (lastMonthOut : ℚ) * 100 < -5
      · rw [if_neg h1, if_pos h2]
        refine ⟨⟨fun hc => Trend.noConfusion hc, fun hc => absurd (key1.mpr hc) h1⟩,
          ⟨fun _ => key2.mp h2, fun _ => rfl⟩,
          ⟨fun hc => Trend.noConfusion hc, fun hc => absurd (key2.mp h2) hc.2⟩, rfl⟩
      · rw [if_neg h1, if_neg h2]
        exact ⟨⟨fun hc => Trend.noConfusion hc, fun hc => absurd (key1.mpr hc) h1⟩,
          ⟨fun hc => Trend.noConfusion hc, fun hc => absurd (key2.mpr hc) h2⟩,
          ⟨fun _ => ⟨fun hc => h1 (key1.mpr hc), fun hc => h2 (key2.mpr hc)⟩, fun _ => rfl⟩, rfl⟩

/-- Witness for C7's amended claim: `lastMonthOut = 20`, `thisMonthOut = 22`
gives `100·2 > 5·20`, so the trend is `up` (with pct = 10 the claim's own
boundary test agrees here). -/
theorem c7_trend_witness : (computeTrend 22 20).1 = Trend.up :=
  ((c7_trend 22 20).2 (by decide)).1.mpr (by decide)

/-! ## Claim C6 -/

/-- Counterexample for C6.  Product of quantity 1 whose single `out`
transaction of amount 1 happened 60 days ago: `actualMonths = 2`,
`avgMonthlyConsumption = 1/2`.  The code divides by `avg || 1 = 1/2`, giving
`monthsOfStock = 2` and class `Med`; the claim's `max(avg, 1) = 1` gives
`monthsOfStock = 1 < 2` and class `High`. -/
theorem c6_counterexample :
    turnoverRate 5184000000 (Product.mk 1 "洗发水" "" "" 1 "" 0)
      [Tx.mk 2 1 "洗发水" "" TxType.tout 1 "" 0] = Turnover.med ∧
    turnoverRateSpec 5184000000 (Product.mk 1 "洗发水" "" "" 1 "" 0)
      [Tx.mk 2 1 "洗发水" "" TxType.tout 1 "" 0] = Turnover.high := by
  constructor
  · simp only [turnoverRate]
    norm_num [List.filter, List.getLast?]
  · simp only [turnoverRateSpec]
    norm_num [List.filter, List.min?]

/-- Claim C6 as amended (proved).  Whenever the source's "last element of the
filtered `out` transactions" really is the earliest one — the transactions
snapshot is fetched ordered by `created_at` descending, so this always holds
for the data the page receives — the computed classification is exactly the
claim's rule with the single correction that the months-of-stock divisor is
`avgMonthlyConsumption` itself when nonzero (the source's `avg || 1`), not
`max(avgMonthlyConsumption, 1)`. -/
theorem c6_turnover (nowMs : Int) (product : Product) (txs : List Tx)
    (hlast : ((txs.filter
        (fun t => decide (t.product_id = product.id ∧ t.type = TxType.tout))).map
          (fun t => t.created_at)).min?
      = ((txs.filter
          (fun t => decide (t.product_id = product.id ∧ t.type = TxType.tout))).getLast?).map
            (fun t => t.created_at)) :
    turnoverRate nowMs product txs = turnoverRateAmended nowMs product txs := by
  rw [turnoverRate, turnoverRateAmended, hlast]
  cases (txs.filter
      (fun t => decide (t.product_id = product.id ∧ t.type = TxType.tout))).getLast? with
  | none => rfl
  | some t => rfl

/-- Witness for C6's amended claim: two `out` transactions listed newest
first; the last listed one (60 days ago) is the earliest, and both readings
classify the product identically. -/
theorem c6_turnover_witness :
    turnoverRate 5184000000 (Product.mk 1 "洗发水" "" "" 9 "" 0)
      [Tx.mk 3 1 "洗发水" "" TxType.tout 2 "" 2592000000,
        Tx.mk 2 1 "洗发水" "" TxType.tout 1 "" 0]
      = turnoverRateAmended 5184000000 (Product.mk 1 "洗发水" "" "" 9 "" 0)
        [Tx.mk 3 1 "洗发水" "" TxType.tout 2 "" 2592000000,
          Tx.mk 2 1 "洗发水" "" TxType.tout 1 "" 0] :=
  c6_turnover 5184000000 (Product.mk 1 "洗发水" "" "" 9 "" 0)
    [Tx.mk 3 1 "洗发水" "" TxType.tout 2 "" 2592000000,
      Tx.mk 2 1 "洗发水" "" TxType.tout 1 "" 0] (by simp [List.filter, List.min?])

end HairStock
